import Mathlib

/-!
Verification of the tool-calling orchestration core of the local_llm
repository (orchestrator/app/langgraph_agent.py, orchestrator/app/tools.py,
orchestrator/app/models.py).

The Python code is shallowly embedded: JSON values become an inductive type,
the external collaborators (language-model gateway, vector-store retriever,
the json.loads argument parser, the filesystem touched by the
file_operations tool) become oracles passed as explicit function-valued
parameters, and an operation that can raise returns Except String.
The bounded generation/tool loop of the LangGraph state machine is embedded
structurally on the remaining iteration budget, which is exact because the
loop guard requires iteration_count < max_iterations before every repeat.
-/

namespace LocalLLM

/-- JSON-like values as produced by json.loads and consumed by json.dumps.
Float literals (the single value 2.3 in the mock data) are carried as their
source text, since no claim computes with them. -/
inductive JsonV : Type where
  | null : JsonV
  | bool (b : Bool) : JsonV
  | num (n : Int) : JsonV
  | float (lit : String) : JsonV
  | str (s : String) : JsonV
  | arr (elems : List JsonV) : JsonV
  | obj (fields : List (String × JsonV)) : JsonV

/-- Python truthiness of a JSON value (None, False, 0, empty string, empty
list and empty dict are falsy). -/
def pyTruthy : JsonV → Bool
  | .null => false
  | .bool b => b
  | .num n => n != 0
  | .float _ => true
  | .str s => !s.isEmpty
  | .arr xs => !xs.isEmpty
  | .obj kvs => !kvs.isEmpty

/-- Escaping of one character inside a JSON string literal (json.dumps). -/
def jsonEscapeChar (c : Char) : String :=
  if c = '\\' then "\\\\"
  else if c = '\"' then "\\\""
  else if c = '\n' then "\\n"
  else if c = '\t' then "\\t"
  else if c = '\r' then "\\r"
  else String.singleton c

/-- A JSON string literal with quotes, as printed by json.dumps. -/
def jsonQuote (s : String) : String :=
  "\"" ++ String.join (s.toList.map jsonEscapeChar) ++ "\""

mutual

/-- json.dumps with its default separators. -/
def dumps : JsonV → String
  | .null => "null"
  | .bool true => "true"
  | .bool false => "false"
  | .num n => toString n
  | .float lit => lit
  | .str s => jsonQuote s
  | .arr xs => "[" ++ dumpsElems xs ++ "]"
  | .obj kvs => "\x7b" ++ dumpsFields kvs ++ "\x7d"

/-- json.dumps of the comma-separated elements of a JSON array. -/
def dumpsElems : List JsonV → String
  | [] => ""
  | [x] => dumps x
  | x :: y :: rest => dumps x ++ ", " ++ dumpsElems (y :: rest)

/-- json.dumps of the comma-separated fields of a JSON object. -/
def dumpsFields : List (String × JsonV) → String
  | [] => ""
  | [(k, v)] => jsonQuote k ++ ": " ++ dumps v
  | (k, v) :: p :: rest => jsonQuote k ++ ": " ++ dumps v ++ ", " ++ dumpsFields (p :: rest)

end

mutual

/-- Python repr() of a JSON value, used when a value is interpolated into an
f-string message. -/
def pyReprJ : JsonV → String
  | .null => "None"
  | .bool true => "True"
  | .bool false => "False"
  | .num n => toString n
  | .float lit => lit
  | .str s => "\x27" ++ s ++ "\x27"
  | .arr xs => "[" ++ pyReprElems xs ++ "]"
  | .obj kvs => "\x7b" ++ pyReprFields kvs ++ "\x7d"

/-- repr() of the elements of a Python list. -/
def pyReprElems : List JsonV → String
  | [] => ""
  | [x] => pyReprJ x
  | x :: y :: rest => pyReprJ x ++ ", " ++ pyReprElems (y :: rest)

/-- repr() of the items of a Python dict. -/
def pyReprFields : List (String × JsonV) → String
  | [] => ""
  | [(k, v)] => "\x27" ++ k ++ "\x27: " ++ pyReprJ v
  | (k, v) :: p :: rest => "\x27" ++ k ++ "\x27: " ++ pyReprJ v ++ ", " ++ pyReprFields (p :: rest)

end

/-- Python str() of a JSON value (strings print without quotes, containers
via repr). -/
def pyStrJ : JsonV → String
  | .str s => s
  | .null => "None"
  | .bool true => "True"
  | .bool false => "False"
  | .num n => toString n
  | .float lit => lit
  | .arr xs => "[" ++ pyReprElems xs ++ "]"
  | .obj kvs => "\x7b" ++ pyReprFields kvs ++ "\x7d"

/-- Python type name of a JSON value, as it appears in TypeError messages. -/
def pyTypeName : JsonV → String
  | .null => "NoneType"
  | .bool _ => "bool"
  | .num _ => "int"
  | .float _ => "float"
  | .str _ => "str"
  | .arr _ => "list"
  | .obj _ => "dict"

/-- The filesystem the file_operations tool touches, as an oracle: each
operation either succeeds or raises (Except.error is the raised OSError
text, which the tool body catches). -/
structure FileSys : Type where
  pathExists : String → Bool
  pathIsDir : String → Bool
  readFile : String → Except String String
  statSize : String → Except String Int
  writeFile : String → String → Except String Unit
  listDir : String → Except String (List String)
  unlink : String → Except String Unit

/-- ToolResponse from orchestrator/app/models.py: tool_call_id, result
(None when absent) and error (None when absent). -/
structure ToolResponse : Type where
  tool_call_id : String
  result : Option JsonV
  error : Option String

/-- First binding of a keyword argument, mirroring lookup in a Python
dict built by json.loads. -/
def lookupArg (kvs : List (String × JsonV)) (k : String) : Option JsonV :=
  (kvs.find? (fun p => p.1 == k)).map Prod.snd

/-- A keyword argument with Python's None standing in for an omitted
optional parameter. -/
def getArg (kvs : List (String × JsonV)) (k : String) : JsonV :=
  (lookupArg kvs k).getD JsonV.null

/-- CPython's validation of a **kwargs call against a fixed signature:
an unexpected keyword, or a missing required parameter, is a TypeError
whose text is returned. -/
def checkKwargs (fname : String) (required allowed : List String)
    (kvs : List (String × JsonV)) : Option String :=
  match kvs.find? (fun p => !allowed.contains p.1) with
  | some p => some (fname ++ "() got an unexpected keyword argument \x27" ++ p.1 ++ "\x27")
  | none =>
    match required.find? (fun r => (lookupArg kvs r).isNone) with
    | some r => some (fname ++ "() missing 1 required positional argument: \x27" ++ r ++ "\x27")
    | none => none

/-- Calling a registered tool with **arguments: a non-mapping raises, the
signature is validated, then the body runs on the bound keyword view. -/
def toolFun (fname : String) (required allowed : List String)
    (body : List (String × JsonV) → Except String JsonV) (args : JsonV) :
    Except String JsonV :=
  match args with
  | .obj kvs =>
    match checkKwargs fname required allowed kvs with
    | some e => Except.error e
    | none => body kvs
  | other =>
    Except.error ("ToolRegistry." ++ fname ++ "() argument after ** must be a mapping, not "
      ++ pyTypeName other)

/-- The boost_target entry of the mock data inside ToolRegistry.get_map. -/
def boost_target_data : JsonV :=
  .obj [("anomalies", .arr [
      .obj [("id", .num 1), ("type", .str "pressure_drop"), ("severity", .str "high")],
      .obj [("id", .num 2), ("type", .str "temperature_spike"), ("severity", .str "medium")]]),
    ("status", .str "active"),
    ("last_updated", .str "2024-01-15T10:30:00Z")]

/-- The engine_params entry of the mock data inside ToolRegistry.get_map. -/
def engine_params_data : JsonV :=
  .obj [("rpm", .num 2500), ("temperature", .num 85), ("pressure", .float "2.3")]

/-- Body of ToolRegistry.get_map. Dict membership of an unhashable key is a
TypeError; a hashable key other than the two mock entries yields the
not-found dict. -/
def get_map_body (key : JsonV) : Except String JsonV :=
  match key with
  | .arr _ => Except.error "unhashable type: \x27list\x27"
  | .obj _ => Except.error "unhashable type: \x27dict\x27"
  | .str "boost_target" => Except.ok (.obj [("key", key), ("data", boost_target_data)])
  | .str "engine_params" => Except.ok (.obj [("key", key), ("data", engine_params_data)])
  | _ => Except.ok (.obj [("key", key), ("data", .null), ("error", .str "Key not found")])

/-- Body of ToolRegistry.apply_patch (mock: the patch argument is unused). -/
def apply_patch_body (repo _patch : JsonV) : JsonV :=
  .obj [("repo", repo), ("patch_applied", .bool true),
    ("changes", .arr [.str "file1.py", .str "file2.py"]),
    ("tests_passed", .bool true), ("message", .str "Patch applied successfully")]

/-- Body of ToolRegistry.search_logs (mock: log_path is unused). -/
def search_logs_body (pattern _log_path : JsonV) : JsonV :=
  .obj [("pattern", pattern),
    ("matches", .arr [
      .obj [("file", .str "app.log"), ("line", .num 123),
        ("content", .str ("Found: " ++ pyStrJ pattern))],
      .obj [("file", .str "error.log"), ("line", .num 45),
        ("content", .str ("Error: " ++ pyStrJ pattern))]]),
    ("total_matches", .num 2)]

/-- Body of ToolRegistry.run_tests (mock: test_pattern is unused). -/
def run_tests_body (project_path _test_pattern : JsonV) : JsonV :=
  .obj [("project_path", project_path), ("tests_run", .num 15),
    ("tests_passed", .num 14), ("tests_failed", .num 1),
    ("duration", .str "2.3s"), ("status", .str "partial_success")]

/-- Body of ToolRegistry.file_operations. Its own try/except catches every
fault and folds it into the returned dict, so the body never raises. -/
def file_operations_body (fs : FileSys) (operation path content : JsonV) : JsonV :=
  match path with
  | .str p =>
    match operation with
    | .str "read" =>
      if !fs.pathExists p then .obj [("error", .str ("File not found: " ++ p))]
      else
        match fs.readFile p with
        | .error e => .obj [("error", .str e)]
        | .ok c =>
          match fs.statSize p with
          | .error e => .obj [("error", .str e)]
          | .ok sz => .obj [("content", .str c), ("size", .num sz)]
    | .str "write" =>
      match content with
      | .null => .obj [("error", .str "Content required for write operation")]
      | .str c =>
        match fs.writeFile p c with
        | .error e => .obj [("error", .str e)]
        | .ok _ => .obj [("message", .str ("File written: " ++ p)), ("size", .num c.length)]
      | other => .obj [("error", .str ("write() argument must be str, not " ++ pyTypeName other))]
    | .str "list" =>
      if !fs.pathExists p then .obj [("error", .str ("Path not found: " ++ p))]
      else if fs.pathIsDir p then
        match fs.listDir p with
        | .error e => .obj [("error", .str e)]
        | .ok files => .obj [("files", .arr (files.map JsonV.str)), ("count", .num files.length)]
      else .obj [("error", .str "Path is not a directory")]
    | .str "delete" =>
      if !fs.pathExists p then .obj [("error", .str ("File not found: " ++ p))]
      else
        match fs.unlink p with
        | .error e => .obj [("error", .str e)]
        | .ok _ => .obj [("message", .str ("File deleted: " ++ p))]
    | op => .obj [("error", .str ("Unknown operation: " ++ pyStrJ op))]
  | other =>
    .obj [("error", .str ("argument should be a str or an os.PathLike object where __fspath__ returns a str, not " ++ pyTypeName other))]

/-- The self.tools dict built by ToolRegistry._register_default_tools, each
entry wrapped with the **kwargs calling convention. -/
def registry_tools (fs : FileSys) : List (String × (JsonV → Except String JsonV)) :=
  [("get_map", toolFun "get_map" ["key"] ["key"]
      (fun kvs => get_map_body (getArg kvs "key"))),
   ("apply_patch", toolFun "apply_patch" ["repo", "patch"] ["repo", "patch"]
      (fun kvs => Except.ok (apply_patch_body (getArg kvs "repo") (getArg kvs "patch")))),
   ("search_logs", toolFun "search_logs" ["pattern"] ["pattern", "log_path"]
      (fun kvs => Except.ok (search_logs_body (getArg kvs "pattern") (getArg kvs "log_path")))),
   ("run_tests", toolFun "run_tests" ["project_path"] ["project_path", "test_pattern"]
      (fun kvs => Except.ok (run_tests_body (getArg kvs "project_path") (getArg kvs "test_pattern")))),
   ("file_operations", toolFun "file_operations" ["operation", "path"] ["operation", "path", "content"]
      (fun kvs => Except.ok (file_operations_body fs (getArg kvs "operation") (getArg kvs "path") (getArg kvs "content"))))]

/-- The registered tool names, in registration order. -/
def registryNames : List String :=
  ["get_map", "apply_patch", "search_logs", "run_tests", "file_operations"]

/-- ToolRegistry.execute_tool: unknown names become a data-valued error,
a fault raised by the invoked tool is caught and becomes the error field,
and a successful body value becomes the result field. -/
def execute_tool (fs : FileSys) (tool_name tool_call_id : String) (arguments : JsonV) :
    ToolResponse :=
  match (registry_tools fs).find? (fun p => p.1 == tool_name) with
  | none => ⟨tool_call_id, none, some ("Unknown tool: " ++ tool_name)⟩
  | some pr =>
    match pr.2 arguments with
    | .ok v => ⟨tool_call_id, some v, none⟩
    | .error e => ⟨tool_call_id, none, some e⟩

/-- The function member of a tool call emitted by the model: name plus the
arguments as serialized text. -/
structure ToolCallFunction : Type where
  name : String
  arguments : String
deriving DecidableEq, Repr

/-- A tool call emitted inside an assistant message. -/
structure ToolCall : Type where
  id : String
  function : ToolCallFunction
deriving DecidableEq, Repr

/-- A message dict threaded through the agent state. content is Option to
model Python None (a null content returned by the gateway, or a tool message
whose computed content is None); an absent tool_calls or tool_call_id key is
the default, matching every .get read in the source. -/
structure Message : Type where
  role : String
  content : Option String
  tool_calls : List ToolCall := []
  tool_call_id : Option String := none
deriving DecidableEq, Repr

/-- ChatMessage from orchestrator/app/models.py (role and content are
strings, validated by pydantic). -/
structure ChatMessage : Type where
  role : String
  content : String
deriving DecidableEq, Repr

/-- The assistant message extracted from a gateway response, after the
source's .get("content", "") and .get("tool_calls", []) defaults: content
none models a JSON null. -/
structure LLMMessage : Type where
  content : Option String
  tool_calls : List ToolCall
deriving DecidableEq, Repr

/-- One retrieval hit; the orchestrator reads only its text field. -/
structure SearchResult : Type where
  text : String
deriving DecidableEq, Repr

/-- AgentState from langgraph_agent.py. -/
structure AgentState : Type where
  messages : List Message
  tool_calls : List ToolCall
  current_step : String
  max_iterations : Nat
  iteration_count : Nat
deriving DecidableEq, Repr

/-- The external collaborators of one turn: the vector-store search (query
content and limit), the gateway (full message list in, extracted assistant
message or raised fault out), json.loads on a tool call's argument text,
and the filesystem behind file_operations. -/
structure Oracles : Type where
  search : Option String → Nat → Except String (List SearchResult)
  llm : List Message → Except String LLMMessage
  parseArgs : String → Except String JsonV
  fs : FileSys

/-- Python list[-1]: the last element, or an IndexError on an empty list. -/
def pyLast {α : Type} : List α → Except String α
  | [] => Except.error "IndexError: list index out of range"
  | [x] => Except.ok x
  | _ :: y :: rest => pyLast (y :: rest)

/-- Python str() of an optional string (None prints as None), used when the
value is interpolated into an f-string. -/
def pystr : Option String → String
  | some s => s
  | none => "None"

/-- LangGraphAgent._analyze_input: reads the last message content behind an
emptiness guard (the read is dead code) and resets iteration_count. -/
def analyze_input (s : AgentState) : Except String AgentState :=
  match (if s.messages.isEmpty then Except.ok (some "")
         else (pyLast s.messages).map Message.content : Except String (Option String)) with
  | .error e => Except.error e
  | .ok _last_message => Except.ok { s with current_step := "analyzed", iteration_count := 0 }

/-- Body of LangGraphAgent._retrieve_context: behind an emptiness guard,
search on the last message's content; on success with a non-empty result
list, rewrite the last message's content to the context block followed by
the original query; any retrieval fault is swallowed. -/
def retrieve_step1 (o : Oracles) (s : AgentState) : Except String AgentState :=
  if s.messages.isEmpty then Except.ok s
  else
    match pyLast s.messages with
    | .error e => Except.error e
    | .ok lastMsg =>
      match o.search lastMsg.content 3 with
      | .error _ => Except.ok s
      | .ok results =>
        if results.isEmpty then Except.ok s
        else
          let context := String.intercalate "\n" (results.map SearchResult.text)
          let newLast :=
            { lastMsg with content := some ("Context: " ++ context ++ "\n\nQuery: " ++ pystr lastMsg.content) }
          Except.ok { s with messages := s.messages.dropLast ++ [newLast] }

/-- Combination of the body of _retrieve_context with its final step
update. -/
def retrieve_context (o : Oracles) (s : AgentState) : Except String AgentState :=
  match retrieve_step1 o s with
  | .error e => Except.error e
  | .ok s1 => Except.ok { s1 with current_step := "context_retrieved" }

/-- LangGraphAgent._generate_response: on gateway success append the
assistant message and record its tool calls when non-empty; on a raised
fault append a synthetic assistant error message and set the error step. -/
def generate_response (o : Oracles) (s : AgentState) : AgentState :=
  match o.llm s.messages with
  | .ok message =>
    let ai_message : Message :=
      { role := "assistant", content := message.content, tool_calls := message.tool_calls }
    let s1 := { s with messages := s.messages ++ [ai_message] }
    let s2 := if message.tool_calls.isEmpty then s1 else { s1 with tool_calls := message.tool_calls }
    { s2 with current_step := "response_generated" }
  | .error e =>
    { s with
        messages := s.messages ++
          [{ role := "assistant", content := some ("Error generating response: " ++ e) }],
        current_step := "error" }

/-- LangGraphAgent._should_use_tools: the tools branch iff the recorded tool
calls are non-empty and the iteration budget is not exhausted. -/
def should_use_tools (s : AgentState) : String :=
  if s.tool_calls ≠ [] ∧ s.iteration_count < s.max_iterations then "tools" else "finalize"

/-- One tool-role message of the _execute_tools loop body: a json.loads
fault is caught per call; otherwise the registry executes and the content is
the dumped result when truthy, else the error text. -/
def toolMessage (o : Oracles) (tool_call : ToolCall) : Message :=
  match o.parseArgs tool_call.function.arguments with
  | .ok arguments =>
    let result := execute_tool o.fs tool_call.function.name tool_call.id arguments
    { role := "tool",
      content :=
        match result.result with
        | some v => if pyTruthy v then some (dumps v) else result.error
        | none => result.error,
      tool_call_id := some tool_call.id }
  | .error e =>
    { role := "tool",
      content := some ("Tool execution error: " ++ e),
      tool_call_id := some tool_call.id }

/-- LangGraphAgent._execute_tools: append one tool message per recorded call
in order, then clear the calls and increment the iteration count. -/
def execute_tools (o : Oracles) (s : AgentState) : AgentState :=
  let messages := s.tool_calls.foldl (fun acc tc => acc ++ [toolMessage o tc]) s.messages
  { s with
      messages := messages, tool_calls := [],
      iteration_count := s.iteration_count + 1, current_step := "tools_executed" }

/-- LangGraphAgent._finalize_response. -/
def finalize_response (s : AgentState) : AgentState :=
  { s with current_step := "completed" }

/-- The generate/tools cycle of the compiled graph, structurally recursive
on the remaining budget max_iterations - iteration_count. The fuel is exact:
the loop guard requires iteration_count < max_iterations, so at fuel zero
the guard is false and the zero case (generate, then finalize) coincides
with the source's control flow. -/
def gen_loop_aux (o : Oracles) : Nat → AgentState → AgentState
  | 0, s => finalize_response (generate_response o s)
  | fuel + 1, s =>
    let s1 := generate_response o s
    if should_use_tools s1 = "tools" then gen_loop_aux o fuel (execute_tools o s1)
    else finalize_response s1

/-- The generate/tools cycle entered with its exact budget. -/
def gen_loop (o : Oracles) (s : AgentState) : AgentState :=
  gen_loop_aux o (s.max_iterations - s.iteration_count) s

/-- The compiled graph: analyze, retrieve, then the generation loop. -/
def run_graph (o : Oracles) (s : AgentState) : Except String AgentState :=
  match analyze_input s with
  | .error e => Except.error e
  | .ok s1 =>
    match retrieve_context o s1 with
    | .error e => Except.error e
    | .ok s2 => Except.ok (gen_loop o s2)

/-- The dict returned by LangGraphAgent.process_request (the error branch
carries no tool_calls key, read back as the empty default). -/
structure AgentResult : Type where
  response : Option String
  tool_calls : List ToolCall
  messages : List Message
  status : String
deriving DecidableEq, Repr

/-- The dict built from a ChatMessage at the top of process_request. -/
def toMessageDict (m : ChatMessage) : Message :=
  { role := m.role, content := some m.content }

/-- The initial AgentState of process_request. -/
def initial_state (message_dicts : List Message) (max_iterations : Nat) : AgentState :=
  { messages := message_dicts, tool_calls := [], current_step := "start",
    max_iterations := max_iterations, iteration_count := 0 }

/-- LangGraphAgent.process_request: run the graph, then answer with the most
recent assistant message and status success when one exists, else the
no-response error; a fault raised by the graph itself is the outer error. -/
def process_request (o : Oracles) (messages : List ChatMessage) (max_iterations : Nat) :
    AgentResult :=
  let message_dicts := messages.map toMessageDict
  match run_graph o (initial_state message_dicts max_iterations) with
  | .ok final_st =>
    let ai_messages := final_st.messages.filter (fun m => m.role == "assistant")
    match ai_messages.getLast? with
    | some last_ai_message =>
      { response := last_ai_message.content, tool_calls := last_ai_message.tool_calls,
        messages := final_st.messages, status := "success" }
    | none =>
      { response := some "No response generated", tool_calls := [],
        messages := final_st.messages, status := "error" }
  | .error e =>
    { response := some ("Agent processing failed: " ++ e), tool_calls := [],
      messages := message_dicts, status := "error" }

/-- The final AgentState of a turn (the graph never raises, so the fallback
branch is never taken). -/
def final_state (o : Oracles) (messages : List ChatMessage) (max_iterations : Nat) :
    AgentState :=
  match run_graph o (initial_state (messages.map toMessageDict) max_iterations) with
  | .ok st => st
  | .error _ => initial_state (messages.map toMessageDict) max_iterations

/-- The tool-call ids carried by an assistant message. -/
def assistantIds (m : Message) : List String :=
  m.tool_calls.map ToolCall.id

/-- Checker for the tool-call-id correlation invariant: scanning the message
list while tracking the ids of the most recent assistant message, every
tool-role message beyond the first k (the initial, caller-supplied prefix)
must carry a tool_call_id among the tracked ids. -/
def checkToolSeq : List String → Nat → List Message → Bool
  | _, _, [] => true
  | cur, k, m :: rest =>
    let ok :=
      if k == 0 && m.role == "tool" then
        match m.tool_call_id with
        | some i => cur.contains i
        | none => false
      else true
    let cur1 := if m.role == "assistant" then assistantIds m else cur
    ok && checkToolSeq cur1 (k - 1) rest

/-- The tracked assistant ids after scanning a message list. -/
def updIds (cur : List String) (msgs : List Message) : List String :=
  msgs.foldl (fun c m => if m.role == "assistant" then assistantIds m else c) cur

/-- The most recent assistant-role message of a list. -/
def lastAssistant (msgs : List Message) : Option Message :=
  (msgs.filter (fun m => m.role == "assistant")).getLast?

/-! ### Helper lemmas about the stages -/

theorem pyLast_concat {α : Type} (xs : List α) (x : α) :
    pyLast (xs ++ [x]) = Except.ok x := by
  induction xs with
  | nil => rfl
  | cons a t ih =>
    cases t with
    | nil => rfl
    | cons b t' => simpa [pyLast] using ih

theorem analyze_input_eq (s : AgentState) :
    analyze_input s = Except.ok { s with current_step := "analyzed", iteration_count := 0 } := by
  unfold analyze_input
  cases hm : s.messages with
  | nil => simp
  | cons a t =>
    rcases List.eq_nil_or_concat (a :: t) with h | ⟨l, x, h⟩
    · simp at h
    · rw [h]
      simp [pyLast_concat, Except.map]

theorem retrieve_step1_shape (o : Oracles) (s : AgentState) :
    ∃ ms, retrieve_step1 o s = Except.ok { s with messages := ms } ∧
      ms.length = s.messages.length := by
  obtain ⟨msgs, tcs, cs, mi, ic⟩ := s
  rcases List.eq_nil_or_concat msgs with h | ⟨l, x, h⟩ <;> subst h
  · exact ⟨[], by simp [retrieve_step1], rfl⟩
  · simp only [List.concat_eq_append]
    cases hs : o.search x.content 3 with
    | error e => exact ⟨l ++ [x], by simp [retrieve_step1, pyLast_concat, hs], by simp⟩
    | ok results =>
      cases results with
      | nil => exact ⟨l ++ [x], by simp [retrieve_step1, pyLast_concat, hs], by simp⟩
      | cons r rs =>
        refine ⟨l ++ [{ x with content := some ("Context: " ++
          String.intercalate "\n" ((r :: rs).map SearchResult.text) ++ "\n\nQuery: " ++ pystr x.content) }],
          by simp [retrieve_step1, pyLast_concat, hs], by simp⟩

theorem retrieve_context_shape (o : Oracles) (s : AgentState) :
    ∃ ms, retrieve_context o s =
        Except.ok { s with messages := ms, current_step := "context_retrieved" } ∧
      ms.length = s.messages.length := by
  rcases retrieve_step1_shape o s with ⟨ms, heq, hlen⟩
  exact ⟨ms, by unfold retrieve_context; rw [heq], hlen⟩

theorem generate_response_shape (o : Oracles) (s : AgentState) :
    ∃ ai step2, ai.role = "assistant" ∧
      generate_response o s =
        { s with
            messages := s.messages ++ [ai],
            tool_calls := if ai.tool_calls.isEmpty then s.tool_calls else ai.tool_calls,
            current_step := step2 } := by
  unfold generate_response
  cases h : o.llm s.messages with
  | ok m =>
    refine ⟨{ role := "assistant", content := m.content, tool_calls := m.tool_calls },
      "response_generated", rfl, ?_⟩
    by_cases he : m.tool_calls.isEmpty <;> simp [he]
  | error e =>
    exact ⟨{ role := "assistant", content := some ("Error generating response: " ++ e) },
      "error", rfl, by simp⟩

theorem generate_response_shape_empty (o : Oracles) (s : AgentState) (h : s.tool_calls = []) :
    ∃ ai step2, ai.role = "assistant" ∧
      generate_response o s =
        { s with
            messages := s.messages ++ [ai], tool_calls := ai.tool_calls,
            current_step := step2 } := by
  rcases generate_response_shape o s with ⟨ai, step2, hrole, heq⟩
  refine ⟨ai, step2, hrole, ?_⟩
  rw [heq, h]
  by_cases he : ai.tool_calls.isEmpty
  · rw [if_pos he, List.isEmpty_iff.mp he]
  · rw [if_neg he]

theorem generate_response_iteration_count (o : Oracles) (s : AgentState) :
    (generate_response o s).iteration_count = s.iteration_count := by
  rcases generate_response_shape o s with ⟨ai, step2, -, heq⟩
  rw [heq]

theorem generate_response_max_iterations (o : Oracles) (s : AgentState) :
    (generate_response o s).max_iterations = s.max_iterations := by
  rcases generate_response_shape o s with ⟨ai, step2, -, heq⟩
  rw [heq]

theorem foldl_append_singleton {α β : Type} (f : α → β) (l : List α) (acc : List β) :
    l.foldl (fun a x => a ++ [f x]) acc = acc ++ l.map f := by
  induction l generalizing acc with
  | nil => simp
  | cons x t ih => simp [ih]

theorem execute_tools_eq (o : Oracles) (s : AgentState) :
    execute_tools o s =
      { s with
          messages := s.messages ++ s.tool_calls.map (toolMessage o), tool_calls := [],
          iteration_count := s.iteration_count + 1, current_step := "tools_executed" } := by
  unfold execute_tools
  rw [foldl_append_singleton]

theorem should_use_tools_iff (s : AgentState) :
    should_use_tools s = "tools" ↔
      (s.tool_calls ≠ [] ∧ s.iteration_count < s.max_iterations) := by
  unfold should_use_tools
  split
  case isTrue h => simpa using h
  case isFalse h => simpa using h

theorem toolMessage_role (o : Oracles) (tc : ToolCall) : (toolMessage o tc).role = "tool" := by
  unfold toolMessage
  cases o.parseArgs tc.function.arguments <;> rfl

theorem toolMessage_id (o : Oracles) (tc : ToolCall) :
    (toolMessage o tc).tool_call_id = some tc.id := by
  unfold toolMessage
  cases o.parseArgs tc.function.arguments <;> rfl

/-! ### Lemmas about the tool-call-id checker -/

theorem updIds_append (cur : List String) (xs ys : List Message) :
    updIds cur (xs ++ ys) = updIds (updIds cur xs) ys := by
  unfold updIds
  exact List.foldl_append _ _ _ _

theorem updIds_singleton_assistant (cur : List String) (m : Message) (h : m.role = "assistant") :
    updIds cur [m] = assistantIds m := by
  simp [updIds, h]

theorem checkToolSeq_append (cur : List String) (k : Nat) (xs ys : List Message) :
    checkToolSeq cur k (xs ++ ys) =
      (checkToolSeq cur k xs && checkToolSeq (updIds cur xs) (k - xs.length) ys) := by
  induction xs generalizing cur k with
  | nil => simp [checkToolSeq, updIds]
  | cons m t ih =>
    simp only [List.cons_append, checkToolSeq, List.append_eq]
    rw [ih, Bool.and_assoc]
    have h1 : k - 1 - t.length = k - (m :: t).length := by simp; omega
    have h2 : updIds cur (m :: t) =
        updIds (if m.role == "assistant" then assistantIds m else cur) t := by
      simp [updIds]
    rw [h1, h2]

theorem checkToolSeq_skip (cur : List String) (k : Nat) (xs : List Message)
    (h : xs.length ≤ k) : checkToolSeq cur k xs = true := by
  induction xs generalizing cur k with
  | nil => rfl
  | cons m t ih =>
    simp only [List.length_cons] at h
    have hk : (k == 0) = false := by
      have hk0 : k ≠ 0 := by omega
      simpa using hk0
    simp only [checkToolSeq, hk, Bool.false_and, Bool.false_eq_true, if_false, Bool.true_and]
    exact ih _ (k - 1) (by omega)


theorem checkToolSeq_singleton_nontool (cur : List String) (k : Nat) (m : Message)
    (h : (m.role == "tool") = false) : checkToolSeq cur k [m] = true := by
  simp [checkToolSeq, h]

theorem checkToolSeq_batch (o : Oracles) (cur : List String) (calls : List ToolCall) :
    (∀ tc ∈ calls, tc.id ∈ cur) →
    ∀ k, checkToolSeq cur k (calls.map (toolMessage o)) = true := by
  induction calls with
  | nil => intro _ k; rfl
  | cons tc t ih =>
    intro h k
    have hmem : cur.contains tc.id = true := by
      simpa [List.elem_iff] using h tc (List.mem_cons_self tc t)
    have hro : ((toolMessage o tc).role == "tool") = true := by
      simp [toolMessage_role]
    have hna : ((toolMessage o tc).role == "assistant") = false := by
      simp [toolMessage_role]
    simp only [List.map_cons, checkToolSeq, hro, hna, toolMessage_id, hmem, Bool.and_true,
      Bool.false_eq_true, if_false, ite_self, Bool.true_and]
    exact ih (fun tc2 htc2 => h tc2 (List.mem_cons_of_mem _ htc2)) (k - 1)

/-! ### Lemmas about the generation loop -/

theorem execute_tools_iteration_count (o : Oracles) (s : AgentState) :
    (execute_tools o s).iteration_count = s.iteration_count + 1 := rfl

theorem execute_tools_max_iterations (o : Oracles) (s : AgentState) :
    (execute_tools o s).max_iterations = s.max_iterations := rfl

theorem execute_tools_tool_calls (o : Oracles) (s : AgentState) :
    (execute_tools o s).tool_calls = [] := rfl

theorem finalize_response_messages (s : AgentState) :
    (finalize_response s).messages = s.messages := rfl

theorem finalize_response_iteration_count (s : AgentState) :
    (finalize_response s).iteration_count = s.iteration_count := rfl

theorem gen_loop_aux_zero (o : Oracles) (s : AgentState) :
    gen_loop_aux o 0 s = finalize_response (generate_response o s) := rfl

theorem gen_loop_aux_count_le (o : Oracles) :
    ∀ (fuel : Nat) (s : AgentState),
      (gen_loop_aux o fuel s).iteration_count ≤ max s.max_iterations s.iteration_count := by
  intro fuel
  induction fuel with
  | zero =>
    intro s
    rw [gen_loop_aux_zero, finalize_response_iteration_count, generate_response_iteration_count]
    exact Nat.le_max_right _ _
  | succ n ih =>
    intro s
    simp only [gen_loop_aux]
    split
    case isTrue hg =>
      have h2 := (should_use_tools_iff _).1 hg
      have hc : s.iteration_count < s.max_iterations := by
        have h3 := h2.2
        rwa [generate_response_iteration_count, generate_response_max_iterations] at h3
      have hx := ih (execute_tools o (generate_response o s))
      rw [execute_tools_iteration_count, execute_tools_max_iterations,
        generate_response_iteration_count, generate_response_max_iterations] at hx
      have hmax : max s.max_iterations (s.iteration_count + 1) = s.max_iterations :=
        Nat.max_eq_left hc
      rw [hmax] at hx
      exact le_trans hx (Nat.le_max_left _ _)
    case isFalse hg =>
      rw [finalize_response_iteration_count, generate_response_iteration_count]
      exact Nat.le_max_right _ _

theorem check_append_assistant (k : Nat) (msgs : List Message) (ai : Message)
    (hrole : ai.role = "assistant") (h : checkToolSeq [] k msgs = true) :
    checkToolSeq [] k (msgs ++ [ai]) = true := by
  rw [checkToolSeq_append, h, Bool.true_and]
  exact checkToolSeq_singleton_nontool _ _ _ (by simp [hrole])

theorem gen_loop_aux_check (o : Oracles) (k : Nat) :
    ∀ (fuel : Nat) (s : AgentState), s.tool_calls = [] →
      checkToolSeq [] k s.messages = true →
      checkToolSeq [] k (gen_loop_aux o fuel s).messages = true := by
  intro fuel
  induction fuel with
  | zero =>
    intro s htc hchk
    rcases generate_response_shape_empty o s htc with ⟨ai, st2, hrole, heq⟩
    rw [gen_loop_aux_zero, finalize_response_messages, heq]
    exact check_append_assistant k s.messages ai hrole hchk
  | succ n ih =>
    intro s htc hchk
    simp only [gen_loop_aux]
    split
    case isFalse hg =>
      rcases generate_response_shape_empty o s htc with ⟨ai, st2, hrole, heq⟩
      rw [finalize_response_messages, heq]
      exact check_append_assistant k s.messages ai hrole hchk
    case isTrue hg =>
      rcases generate_response_shape_empty o s htc with ⟨ai, st2, hrole, heq⟩
      apply ih _ (execute_tools_tool_calls _ _)
      have hmsg := congrArg AgentState.messages (execute_tools_eq o (generate_response o s))
      rw [hmsg, heq]
      rw [checkToolSeq_append]
      have h1 : checkToolSeq [] k (({ s with
          messages := s.messages ++ [ai], tool_calls := ai.tool_calls,
          current_step := st2 } : AgentState).messages) = true :=
        check_append_assistant k s.messages ai hrole hchk
      rw [h1, Bool.true_and]
      have hupd : updIds [] (({ s with
          messages := s.messages ++ [ai], tool_calls := ai.tool_calls,
          current_step := st2 } : AgentState).messages) = assistantIds ai := by
        rw [updIds_append]
        exact updIds_singleton_assistant _ ai hrole
      rw [hupd]
      exact checkToolSeq_batch o (assistantIds ai) ai.tool_calls
        (fun tc htc2 => List.mem_map_of_mem ToolCall.id htc2) _

theorem gen_loop_aux_one_shot (o : Oracles) (fuel : Nat) (s : AgentState)
    (hfin : should_use_tools (generate_response o s) ≠ "tools") :
    gen_loop_aux o fuel s = finalize_response (generate_response o s) := by
  cases fuel with
  | zero => rfl
  | succ n =>
    simp only [gen_loop_aux]
    rw [if_neg hfin]

theorem gen_loop_error (o : Oracles) (s : AgentState) (e : String)
    (htc : s.tool_calls = []) (h : o.llm s.messages = Except.error e) :
    gen_loop o s =
      { s with
          messages := s.messages ++
            [{ role := "assistant", content := some ("Error generating response: " ++ e) }],
          current_step := "completed" } := by
  have hgen : generate_response o s =
      { s with
          messages := s.messages ++
            [{ role := "assistant", content := some ("Error generating response: " ++ e) }],
          current_step := "error" } := by
    unfold generate_response
    rw [h]
  have hfin : should_use_tools (generate_response o s) ≠ "tools" := by
    rw [hgen]
    intro hc
    exact ((should_use_tools_iff _).1 hc).1 htc
  rw [gen_loop, gen_loop_aux_one_shot _ _ _ hfin, hgen]
  rfl

theorem gen_loop_no_tools (o : Oracles) (s : AgentState) (c : Option String)
    (htc : s.tool_calls = []) (h : o.llm s.messages = Except.ok ⟨c, []⟩) :
    gen_loop o s =
      { s with
          messages := s.messages ++ [{ role := "assistant", content := c }],
          current_step := "completed" } := by
  have hgen : generate_response o s =
      { s with
          messages := s.messages ++ [{ role := "assistant", content := c }],
          current_step := "response_generated" } := by
    unfold generate_response
    rw [h]
    simp
  have hfin : should_use_tools (generate_response o s) ≠ "tools" := by
    rw [hgen]
    intro hc
    exact ((should_use_tools_iff _).1 hc).1 htc
  rw [gen_loop, gen_loop_aux_one_shot _ _ _ hfin, hgen]
  rfl

/-! ### Lemmas about the whole turn -/

theorem run_graph_eq (o : Oracles) (s : AgentState) :
    ∃ ms, run_graph o s =
        Except.ok (gen_loop o
          { s with messages := ms, current_step := "context_retrieved", iteration_count := 0 }) ∧
      ms.length = s.messages.length := by
  rcases retrieve_context_shape o { s with current_step := "analyzed", iteration_count := 0 }
    with ⟨ms, heq, hlen⟩
  refine ⟨ms, ?_, by simpa using hlen⟩
  simp only [run_graph, analyze_input_eq, heq]

theorem final_state_spec (o : Oracles) (msgs : List ChatMessage) (maxIter : Nat) :
    ∃ ms, final_state o msgs maxIter =
        gen_loop o ⟨ms, [], "context_retrieved", maxIter, 0⟩ ∧
      ms.length = msgs.length := by
  unfold final_state
  rcases run_graph_eq o (initial_state (msgs.map toMessageDict) maxIter) with ⟨ms, heq, hlen⟩
  rw [heq]
  exact ⟨ms, rfl, by simpa [initial_state] using hlen⟩

theorem process_request_eq (o : Oracles) (msgs : List ChatMessage) (maxIter : Nat) :
    process_request o msgs maxIter =
      match ((final_state o msgs maxIter).messages.filter (fun m => m.role == "assistant")).getLast? with
      | some last =>
        { response := last.content, tool_calls := last.tool_calls,
          messages := (final_state o msgs maxIter).messages, status := "success" }
      | none =>
        { response := some "No response generated", tool_calls := [],
          messages := (final_state o msgs maxIter).messages, status := "error" } := by
  unfold process_request final_state
  rcases run_graph_eq o (initial_state (msgs.map toMessageDict) maxIter) with ⟨ms, heq, -⟩
  simp only [heq]

theorem final_state_count_le (o : Oracles) (msgs : List ChatMessage) (maxIter : Nat) :
    (final_state o msgs maxIter).iteration_count ≤ maxIter := by
  rcases final_state_spec o msgs maxIter with ⟨ms, heq, -⟩
  rw [heq, gen_loop]
  have h := gen_loop_aux_count_le o
    (AgentState.max_iterations ⟨ms, [], "context_retrieved", maxIter, 0⟩ -
      AgentState.iteration_count ⟨ms, [], "context_retrieved", maxIter, 0⟩)
    ⟨ms, [], "context_retrieved", maxIter, 0⟩
  simpa using h

theorem final_state_check (o : Oracles) (msgs : List ChatMessage) (maxIter : Nat) :
    checkToolSeq [] msgs.length (final_state o msgs maxIter).messages = true := by
  rcases final_state_spec o msgs maxIter with ⟨ms, heq, hlen⟩
  rw [heq, gen_loop]
  apply gen_loop_aux_check o msgs.length _ _ rfl
  exact checkToolSeq_skip _ _ _ (le_of_eq hlen)

/-! ### Lemmas about the tool registry -/

theorem str_append_ne_empty (a b : String) (h : a ≠ "") : a ++ b ≠ "" := by
  intro hc
  apply h
  have hlen := congrArg String.length hc
  rw [String.length_append, String.length_empty] at hlen
  have ha : a.length = 0 := by omega
  cases a with
  | mk data =>
    cases data with
    | nil => rfl
    | cons c cs => simp [String.length] at ha

theorem checkKwargs_some_ne (fname : String) (req allowed : List String)
    (kvs : List (String × JsonV)) (e : String) (hf : fname ≠ "")
    (h : checkKwargs fname req allowed kvs = some e) : e ≠ "" := by
  unfold checkKwargs at h
  split at h
  · injection h with h1
    rw [← h1]
    exact str_append_ne_empty _ _ (str_append_ne_empty _ _ (str_append_ne_empty _ _ hf))
  · split at h
    · injection h with h1
      rw [← h1]
      exact str_append_ne_empty _ _ (str_append_ne_empty _ _ (str_append_ne_empty _ _ hf))
    · cases h

theorem toolFun_spec (fname : String) (req allowed : List String)
    (body : List (String × JsonV) → Except String JsonV) (args : JsonV) (hf : fname ≠ "")
    (hbody : ∀ kvs, (∃ v, body kvs = Except.ok v ∧ pyTruthy v = true) ∨
        (∃ e, body kvs = Except.error e ∧ e ≠ "")) :
    (∃ v, toolFun fname req allowed body args = Except.ok v ∧ pyTruthy v = true) ∨
    (∃ e, toolFun fname req allowed body args = Except.error e ∧ e ≠ "") := by
  have hmap : ("ToolRegistry." ++ fname ++ "() argument after ** must be a mapping, not "
      ++ pyTypeName args) ≠ "" :=
    str_append_ne_empty _ _ (str_append_ne_empty _ _ (str_append_ne_empty _ _ (by decide)))
  cases args with
  | obj kvs =>
    cases hk : checkKwargs fname req allowed kvs with
    | some e =>
      refine Or.inr ⟨e, ?_, checkKwargs_some_ne fname req allowed kvs e hf hk⟩
      simp only [toolFun, hk]
    | none =>
      have hb := hbody kvs
      simpa only [toolFun, hk] using hb
  | null => exact Or.inr ⟨_, rfl, hmap⟩
  | bool b => exact Or.inr ⟨_, rfl, hmap⟩
  | num n => exact Or.inr ⟨_, rfl, hmap⟩
  | float lit => exact Or.inr ⟨_, rfl, hmap⟩
  | str s => exact Or.inr ⟨_, rfl, hmap⟩
  | arr xs => exact Or.inr ⟨_, rfl, hmap⟩

theorem get_map_body_spec (key : JsonV) :
    (∃ v, get_map_body key = Except.ok v ∧ pyTruthy v = true) ∨
    (∃ e, get_map_body key = Except.error e ∧ e ≠ "") := by
  unfold get_map_body
  split
  · exact Or.inr ⟨_, rfl, by decide⟩
  · exact Or.inr ⟨_, rfl, by decide⟩
  · exact Or.inl ⟨_, rfl, rfl⟩
  · exact Or.inl ⟨_, rfl, rfl⟩
  · exact Or.inl ⟨_, rfl, rfl⟩

theorem file_operations_body_truthy (fs : FileSys) (operation path content : JsonV) :
    pyTruthy (file_operations_body fs operation path content) = true := by
  unfold file_operations_body
  repeat' split
  all_goals rfl

theorem execute_tool_exclusive (fs : FileSys) (name id : String) (args : JsonV) :
    (∃ v, (execute_tool fs name id args).result = some v ∧ pyTruthy v = true ∧
        (execute_tool fs name id args).error = none) ∨
    ((execute_tool fs name id args).result = none ∧
      ∃ e, (execute_tool fs name id args).error = some e ∧ e ≠ "") := by
  unfold execute_tool
  cases hf : (registry_tools fs).find? (fun p => p.1 == name) with
  | none =>
    exact Or.inr ⟨rfl, _, rfl, str_append_ne_empty _ _ (by decide)⟩
  | some pr =>
    have hmem := List.mem_of_find?_eq_some hf
    have hspec : (∃ v, pr.2 args = Except.ok v ∧ pyTruthy v = true) ∨
        (∃ e, pr.2 args = Except.error e ∧ e ≠ "") := by
      simp only [registry_tools, List.mem_cons, List.mem_singleton, List.not_mem_nil,
        or_false] at hmem
      rcases hmem with h | h | h | h | h <;> rw [h]
      · exact toolFun_spec _ _ _ _ _ (by decide)
          (fun kvs => get_map_body_spec (getArg kvs "key"))
      · exact toolFun_spec _ _ _ _ _ (by decide)
          (fun kvs => Or.inl ⟨_, rfl, rfl⟩)
      · exact toolFun_spec _ _ _ _ _ (by decide)
          (fun kvs => Or.inl ⟨_, rfl, rfl⟩)
      · exact toolFun_spec _ _ _ _ _ (by decide)
          (fun kvs => Or.inl ⟨_, rfl, rfl⟩)
      · exact toolFun_spec _ _ _ _ _ (by decide)
          (fun kvs => Or.inl ⟨_, rfl, file_operations_body_truthy fs _ _ _⟩)
    rcases hspec with ⟨v, hv, htr⟩ | ⟨e, he, hne⟩
    · exact Or.inl ⟨v, by simp only [hv], htr, by simp only [hv]⟩
    · exact Or.inr ⟨by simp only [he], e, by simp only [he], hne⟩

theorem execute_tool_result_truthy (fs : FileSys) (name id : String) (args : JsonV)
    (v : JsonV) (h : (execute_tool fs name id args).result = some v) : pyTruthy v = true := by
  rcases execute_tool_exclusive fs name id args with ⟨w, hw, htr, -⟩ | ⟨hn, -⟩
  · rw [hw] at h
    injection h with h1
    rw [← h1]
    exact htr
  · rw [hn] at h
    cases h

theorem execute_tool_id (fs : FileSys) (name id : String) (args : JsonV) :
    (execute_tool fs name id args).tool_call_id = id := by
  unfold execute_tool
  cases hf : (registry_tools fs).find? (fun p => p.1 == name) with
  | none => rfl
  | some pr => cases h : pr.2 args <;> simp only [h]

theorem registry_find_eq_none (fs : FileSys) (name : String) (h : name ∉ registryNames) :
    (registry_tools fs).find? (fun p => p.1 == name) = none := by
  simp only [registryNames, List.mem_cons, List.not_mem_nil, or_false, not_or] at h
  obtain ⟨h1, h2, h3, h4, h5⟩ := h
  rw [List.find?_eq_none]
  intro p hp
  simp only [registry_tools, List.mem_cons, List.not_mem_nil, or_false] at hp
  rcases hp with hp | hp | hp | hp | hp <;> subst hp <;> simp only [beq_iff_eq] <;>
    first
      | exact fun hc => h1 hc.symm
      | exact fun hc => h2 hc.symm
      | exact fun hc => h3 hc.symm
      | exact fun hc => h4 hc.symm
      | exact fun hc => h5 hc.symm

theorem toolMessage_content (o : Oracles) (tc : ToolCall) :
    (toolMessage o tc).content =
      (match o.parseArgs tc.function.arguments with
       | .error e => some ("Tool execution error: " ++ e)
       | .ok args =>
         match (execute_tool o.fs tc.function.name tc.id args).result with
         | some v => some (dumps v)
         | none => (execute_tool o.fs tc.function.name tc.id args).error) := by
  unfold toolMessage
  cases hp : o.parseArgs tc.function.arguments with
  | error e => simp only [hp]
  | ok args =>
    simp only [hp]
    cases hr : (execute_tool o.fs tc.function.name tc.id args).result with
    | none => simp only [hr]
    | some v =>
      simp only [hr, execute_tool_result_truthy o.fs tc.function.name tc.id args v hr,
        if_true]

theorem retrieve_context_of_search_error (o : Oracles) (s : AgentState)
    (h : ∀ q n, ∃ e, o.search q n = Except.error e) :
    retrieve_context o s = Except.ok { s with current_step := "context_retrieved" } := by
  unfold retrieve_context retrieve_step1
  obtain ⟨msgs, tcs, cs, mi, ic⟩ := s
  rcases List.eq_nil_or_concat msgs with hm | ⟨l, x, hm⟩ <;> subst hm
  · rfl
  · simp only [List.concat_eq_append]
    rcases h x.content 3 with ⟨e, he⟩
    simp [pyLast_concat, he]

theorem process_request_of_final_messages (o : Oracles) (msgs : List ChatMessage)
    (maxIter : Nat) (pre : List Message) (ai : Message) (hrole : ai.role = "assistant")
    (hmsg : (final_state o msgs maxIter).messages = pre ++ [ai]) :
    process_request o msgs maxIter =
      { response := ai.content, tool_calls := ai.tool_calls,
        messages := pre ++ [ai], status := "success" } := by
  rw [process_request_eq, hmsg]
  have hfil : ((pre ++ [ai]).filter (fun m => m.role == "assistant")) =
      pre.filter (fun m => m.role == "assistant") ++ [ai] := by
    simp [List.filter_append, hrole]
  rw [hfil, List.getLast?_concat]

/-! ### Concrete oracles for witnesses and counterexamples -/

/-- A filesystem on which every operation fails. -/
def fs0 : FileSys :=
  ⟨fun _ => false, fun _ => false, fun _ => Except.error "os error",
   fun _ => Except.error "os error", fun _ _ => Except.error "os error",
   fun _ => Except.error "os error", fun _ => Except.error "os error"⟩

/-- Oracles whose gateway always raises. -/
def oFailGen : Oracles :=
  ⟨fun _ _ => Except.ok [], fun _ => Except.error "boom",
   fun _ => Except.error "bad json", fs0⟩

/-- Oracles whose gateway always answers with empty content and one tool
call whose argument text does not parse. -/
def oEmptyLoop : Oracles :=
  ⟨fun _ _ => Except.ok [], fun _ => Except.ok ⟨some "", [⟨"c1", ⟨"get_map", "a"⟩⟩]⟩,
   fun _ => Except.error "bad json", fs0⟩

/-- Oracles whose retriever always returns exactly one hit. -/
def oOneHit : Oracles :=
  ⟨fun _ _ => Except.ok [⟨"doc"⟩], fun _ => Except.error "boom",
   fun _ => Except.error "bad json", fs0⟩

/-! ### The claims -/

/-- C2: the decision after generation takes the tools branch iff there is at
least one pending tool call and iteration_count < max_iterations;
iteration_count increases by exactly one per tool-execution cycle; and the
final state of every turn has iteration_count at most max_iterations, so the
loop performs at most max_iterations tool cycles (termination itself is
witnessed by gen_loop being a total structurally recursive function). -/
theorem claim_C2 :
    (∀ s : AgentState, should_use_tools s = "tools" ↔
        (s.tool_calls ≠ [] ∧ s.iteration_count < s.max_iterations))
    ∧ (∀ (o : Oracles) (s : AgentState),
        (execute_tools o s).iteration_count = s.iteration_count + 1)
    ∧ (∀ (o : Oracles) (msgs : List ChatMessage) (maxIter : Nat),
        (final_state o msgs maxIter).iteration_count ≤ maxIter) :=
  ⟨should_use_tools_iff, fun _ _ => rfl, final_state_count_le⟩

/-- C4: every ToolResult produced by the Tool Registry's execute operation
has exactly one of result/error populated: either result is a truthy value
and error is none, or result is none and error is a non-empty string. -/
theorem claim_C4 : ∀ (fs : FileSys) (name id : String) (args : JsonV),
    (∃ v, (execute_tool fs name id args).result = some v ∧ pyTruthy v = true ∧
        (execute_tool fs name id args).error = none) ∨
    ((execute_tool fs name id args).result = none ∧
      ∃ e, (execute_tool fs name id args).error = some e ∧ e ≠ "") :=
  execute_tool_exclusive

/-- C5: Tool Registry execute never raises: it always returns a ToolResponse
carrying the given call id; an unregistered name yields the data-valued
"Unknown tool" error with result none; and a fault raised inside the invoked
tool (including argument-mapping faults) is returned as the error field. -/
theorem claim_C5 : ∀ (fs : FileSys) (name id : String) (args : JsonV),
    (execute_tool fs name id args).tool_call_id = id
    ∧ (name ∉ registryNames →
        execute_tool fs name id args = ⟨id, none, some ("Unknown tool: " ++ name)⟩)
    ∧ (∀ pr, (registry_tools fs).find? (fun p => p.1 == name) = some pr →
        ∀ e, pr.2 args = Except.error e →
          execute_tool fs name id args = ⟨id, none, some e⟩) := by
  intro fs name id args
  refine ⟨execute_tool_id fs name id args, ?_, ?_⟩
  · intro h
    unfold execute_tool
    simp only [registry_find_eq_none fs name h]
  · intro pr hf e he
    unfold execute_tool
    simp only [hf, he]

/-- C5 witness: the unknown tool "does_not_exist" yields the data-valued
error of the spec scenario, and an argument-mapping fault (missing required
key) on the registered get_map is returned as the error field. -/
theorem claim_C5_witness :
    execute_tool fs0 "does_not_exist" "c9" (JsonV.obj []) =
      ⟨"c9", none, some "Unknown tool: does_not_exist"⟩ ∧
    execute_tool fs0 "get_map" "c1" (JsonV.obj []) =
      ⟨"c1", none, some "get_map() missing 1 required positional argument: \x27key\x27"⟩ :=
  ⟨(claim_C5 fs0 "does_not_exist" "c9" (JsonV.obj [])).2.1 (by decide),
   (claim_C5 fs0 "get_map" "c1" (JsonV.obj [])).2.2 _ rfl _ rfl⟩

/-- C7: every tool-role message appended during a turn (that is, beyond the
caller-supplied prefix) carries a tool_call_id among the call ids of the
most recent preceding assistant-role message. -/
theorem claim_C7 : ∀ (o : Oracles) (msgs : List ChatMessage) (maxIter : Nat),
    checkToolSeq [] msgs.length (final_state o msgs maxIter).messages = true :=
  final_state_check

/-- C8: one tool-execution cycle appends exactly one tool-role message per
pending call, in emission order (a map over the pending list, so a failing
call never prevents its siblings), then clears the pending calls and
increments the iteration count; each appended message carries the call id,
and its content is the dumped result on success and the error text
otherwise. -/
theorem claim_C8 :
    (∀ (o : Oracles) (s : AgentState),
        execute_tools o s =
          { s with
              messages := s.messages ++ s.tool_calls.map (toolMessage o), tool_calls := [],
              iteration_count := s.iteration_count + 1, current_step := "tools_executed" })
    ∧ (∀ (o : Oracles) (tc : ToolCall),
        (toolMessage o tc).role = "tool"
        ∧ (toolMessage o tc).tool_call_id = some tc.id
        ∧ (toolMessage o tc).content =
            (match o.parseArgs tc.function.arguments with
             | .error e => some ("Tool execution error: " ++ e)
             | .ok args =>
               match (execute_tool o.fs tc.function.name tc.id args).result with
               | some v => some (dumps v)
               | none => (execute_tool o.fs tc.function.name tc.id args).error)) :=
  ⟨execute_tools_eq,
   fun o tc => ⟨toolMessage_role o tc, toolMessage_id o tc, toolMessage_content o tc⟩⟩

/-- C1 (amended): when the gateway call raises, the orchestrator appends one
synthetic assistant-role message carrying the error text, the loop ends at
once (no retry, nothing raised to the caller), and the returned status is
"success" — not "error" as claimed — because the finalizer reports success
whenever any assistant-role message exists. -/
theorem claim_C1_amended :
    (∀ (o : Oracles) (s : AgentState) (e : String), s.tool_calls = [] →
        o.llm s.messages = Except.error e →
        gen_loop o s =
          { s with
              messages := s.messages ++
                [{ role := "assistant", content := some ("Error generating response: " ++ e) }],
              current_step := "completed" })
    ∧ (∀ (ferr : List Message → String)
        (search : Option String → Nat → Except String (List SearchResult))
        (parse : String → Except String JsonV) (fs : FileSys)
        (msgs : List ChatMessage) (maxIter : Nat),
        (process_request ⟨search, fun ms => Except.error (ferr ms), parse, fs⟩
            msgs maxIter).status = "success"
        ∧ ∃ t, (process_request ⟨search, fun ms => Except.error (ferr ms), parse, fs⟩
            msgs maxIter).response = some ("Error generating response: " ++ t)) := by
  constructor
  · exact gen_loop_error
  · intro ferr search parse fs msgs maxIter
    rcases final_state_spec ⟨search, fun ms => Except.error (ferr ms), parse, fs⟩ msgs maxIter
      with ⟨ms, heq, -⟩
    have hloop := gen_loop_error ⟨search, fun ms => Except.error (ferr ms), parse, fs⟩
      ⟨ms, [], "context_retrieved", maxIter, 0⟩ (ferr ms) rfl rfl
    have hmsg : (final_state ⟨search, fun ms => Except.error (ferr ms), parse, fs⟩
          msgs maxIter).messages =
        ms ++ [⟨"assistant", some ("Error generating response: " ++ ferr ms), [], none⟩] := by
      rw [heq, hloop]
    have hpr := process_request_of_final_messages _ msgs maxIter ms _ rfl hmsg
    rw [hpr]
    exact ⟨rfl, ferr ms, rfl⟩

/-- C1 witness: a concrete turn whose gateway raises "boom": the loop ends
with exactly the synthetic assistant error message appended. -/
theorem claim_C1_witness :
    gen_loop oFailGen ⟨[⟨"user", some "hi", [], none⟩], [], "context_retrieved", 3, 0⟩ =
      ⟨[⟨"user", some "hi", [], none⟩,
        ⟨"assistant", some "Error generating response: boom", [], none⟩], [], "completed", 3, 0⟩ :=
  claim_C1_amended.1 oFailGen ⟨[⟨"user", some "hi", [], none⟩], [], "context_retrieved", 3, 0⟩
    "boom" rfl rfl

/-- C1 counterexample: with a gateway that raises, the turn completes with
status "success", not "error" as the claim states — the synthetic assistant
error message makes the finalizer report success. -/
theorem claim_C1_counterexample :
    (process_request oFailGen [⟨"user", "hi"⟩] 3).status = "success"
    ∧ ¬ (process_request oFailGen [⟨"user", "hi"⟩] 3).status = "error"
    ∧ (process_request oFailGen [⟨"user", "hi"⟩] 3).response =
        some "Error generating response: boom" := by
  refine ⟨rfl, ?_, rfl⟩
  intro hc
  have h1 : (process_request oFailGen [⟨"user", "hi"⟩] 3).status = "success" := rfl
  rw [h1] at hc
  exact absurd hc (by decide)

/-- C3 (amended): the final answer is the content of the most recent
assistant-role message (or the fixed no-response text when none exists), and
the returned status is "success" iff at least one assistant-role message
exists, else "error"; the budget-exhaustion clause holds only as an
implication — non-empty content implies success — not as an iff. -/
theorem claim_C3_amended : ∀ (o : Oracles) (msgs : List ChatMessage) (maxIter : Nat),
    ((process_request o msgs maxIter).status = "success" ↔
      ∃ m ∈ (process_request o msgs maxIter).messages, m.role = "assistant")
    ∧ (process_request o msgs maxIter).response =
        (match lastAssistant (process_request o msgs maxIter).messages with
         | some m => m.content
         | none => some "No response generated")
    ∧ ((process_request o msgs maxIter).status = "success" ∨
        (process_request o msgs maxIter).status = "error") := by
  intro o msgs maxIter
  rw [process_request_eq]
  cases hl : ((final_state o msgs maxIter).messages.filter
      (fun m => m.role == "assistant")).getLast? with
  | some last =>
    simp only [hl]
    have hmem := List.mem_filter.mp (List.mem_of_getLast?_eq_some hl)
    refine ⟨⟨fun _ => ⟨last, hmem.1, by simpa using hmem.2⟩, fun _ => trivial⟩,
      by simp only [lastAssistant, hl], Or.inl trivial⟩
  | none =>
    simp only [hl]
    have hfil := List.getLast?_eq_none_iff.mp hl
    have hno : ∀ m ∈ (final_state o msgs maxIter).messages, ¬ m.role = "assistant" := by
      intro m hm hc
      have h2 := List.filter_eq_nil_iff.mp hfil m hm
      simp [hc] at h2
    refine ⟨⟨fun h => absurd h (by decide), fun h => ?_⟩,
      by simp only [lastAssistant, hl], Or.inr trivial⟩
    rcases h with ⟨m, hm, hrole⟩
    exact absurd hrole (hno m hm)

/-- C3 counterexample: the budget-exhaustion run (gateway always emits a
tool call, empty content, max_iterations 3) ends with status "success" and
an empty final answer, refuting the claim's "success iff that content is
non-empty" reading. -/
theorem claim_C3_counterexample :
    (process_request oEmptyLoop [⟨"user", "hi"⟩] 3).status = "success"
    ∧ (process_request oEmptyLoop [⟨"user", "hi"⟩] 3).response = some ""
    ∧ (final_state oEmptyLoop [⟨"user", "hi"⟩] 3).iteration_count = 3
    ∧ ¬ ((process_request oEmptyLoop [⟨"user", "hi"⟩] 3).status = "success" ↔
        (process_request oEmptyLoop [⟨"user", "hi"⟩] 3).response ≠ some "") := by
  refine ⟨rfl, rfl, rfl, ?_⟩
  intro hiff
  exact (hiff.mp rfl) rfl

/-- C6: a retriever failure never aborts the turn: with a retriever that
always raises, the retrieve stage returns the state unmodified (only the
step marker advances), and the full turn still completes with status
"success" and the generated answer when generation succeeds. -/
theorem claim_C6 :
    (∀ (ferr : Option String → Nat → String) (llm : List Message → Except String LLMMessage)
        (parse : String → Except String JsonV) (fs : FileSys) (s : AgentState),
        retrieve_context ⟨fun q n => Except.error (ferr q n), llm, parse, fs⟩ s =
          Except.ok { s with current_step := "context_retrieved" })
    ∧ (∀ (ferr : Option String → Nat → String) (parse : String → Except String JsonV)
        (fs : FileSys) (c : Option String) (msgs : List ChatMessage) (maxIter : Nat),
        (process_request ⟨fun q n => Except.error (ferr q n), fun _ => Except.ok ⟨c, []⟩,
            parse, fs⟩ msgs maxIter).status = "success"
        ∧ (process_request ⟨fun q n => Except.error (ferr q n), fun _ => Except.ok ⟨c, []⟩,
            parse, fs⟩ msgs maxIter).response = c) := by
  constructor
  · intro ferr llm parse fs s
    exact retrieve_context_of_search_error _ s (fun q n => ⟨ferr q n, rfl⟩)
  · intro ferr parse fs c msgs maxIter
    rcases final_state_spec ⟨fun q n => Except.error (ferr q n), fun _ => Except.ok ⟨c, []⟩,
        parse, fs⟩ msgs maxIter with ⟨ms, heq, -⟩
    have hloop := gen_loop_no_tools ⟨fun q n => Except.error (ferr q n),
        fun _ => Except.ok ⟨c, []⟩, parse, fs⟩
      ⟨ms, [], "context_retrieved", maxIter, 0⟩ c rfl rfl
    have hmsg : (final_state ⟨fun q n => Except.error (ferr q n), fun _ => Except.ok ⟨c, []⟩,
          parse, fs⟩ msgs maxIter).messages = ms ++ [⟨"assistant", c, [], none⟩] := by
      rw [heq, hloop]
    have hpr := process_request_of_final_messages _ msgs maxIter ms _ rfl hmsg
    rw [hpr]
    exact ⟨rfl, rfl⟩

/-- C9 (amended): when retrieval succeeds with at least one result, the
passages are prepended as a context block to the content of the last message
of the sequence — whatever its role, not specifically the last user-role
message — with the original content preserved verbatim after the "Query:"
marker, and no other message is modified. -/
theorem claim_C9_amended :
    ∀ (g : Option String → Nat → SearchResult × List SearchResult)
      (llm : List Message → Except String LLMMessage) (parse : String → Except String JsonV)
      (fs : FileSys) (pre : List Message) (lastMsg : Message) (tcs : List ToolCall)
      (step : String) (mi ic : Nat),
    retrieve_context ⟨fun q n => Except.ok ((g q n).1 :: (g q n).2), llm, parse, fs⟩
        ⟨pre ++ [lastMsg], tcs, step, mi, ic⟩ =
      Except.ok ⟨pre ++ [{ lastMsg with content := some ("Context: " ++
          String.intercalate "\n"
            (((g lastMsg.content 3).1 :: (g lastMsg.content 3).2).map SearchResult.text)
          ++ "\n\nQuery: " ++ pystr lastMsg.content) }],
        tcs, "context_retrieved", mi, ic⟩ := by
  intro g llm parse fs pre lastMsg tcs step mi ic
  unfold retrieve_context retrieve_step1
  rw [if_neg (by simp), pyLast_concat]
  simp [List.dropLast_concat]

/-- C9 counterexample: with a conversation ending in a system-role message,
the retrieved passage is prepended to that last (system) message, while the
last user-role message is left unmodified — the claim's "last user message"
does not hold on the code. -/
theorem claim_C9_counterexample :
    retrieve_context oOneHit
        ⟨[⟨"user", some "hello", [], none⟩, ⟨"system", some "sys", [], none⟩],
          [], "analyzed", 3, 0⟩ =
      Except.ok ⟨[⟨"user", some "hello", [], none⟩,
          ⟨"system", some "Context: doc\n\nQuery: sys", [], none⟩],
        [], "context_retrieved", 3, 0⟩
    ∧ (([⟨"user", some "hello", [], none⟩,
          ⟨"system", some "Context: doc\n\nQuery: sys", [], none⟩] : List Message).filter
        (fun m => m.role == "user")).getLast? = some ⟨"user", some "hello", [], none⟩
    ∧ (some "hello" : Option String) ≠ some ("Context: doc\n\nQuery: hello") := by
  refine ⟨rfl, rfl, ?_⟩
  intro hc
  injection hc with hc1
  exact absurd hc1 (by decide)

/-- C10: a turn started with an empty message list raises no index error in
the analyze and retrieve stages (both return normally with the list
untouched), the graph proceeds to the generation loop, and with a
successful generation the turn completes with status "success". -/
theorem claim_C10 : ∀ (o : Oracles) (maxIter : Nat) (c : Option String),
    analyze_input (initial_state [] maxIter) =
      Except.ok ⟨[], [], "analyzed", maxIter, 0⟩
    ∧ retrieve_context o ⟨[], [], "analyzed", maxIter, 0⟩ =
      Except.ok ⟨[], [], "context_retrieved", maxIter, 0⟩
    ∧ run_graph o (initial_state [] maxIter) =
      Except.ok (gen_loop o ⟨[], [], "context_retrieved", maxIter, 0⟩)
    ∧ (process_request ⟨o.search, fun _ => Except.ok ⟨c, []⟩, o.parseArgs, o.fs⟩
        ([] : List ChatMessage) maxIter).status = "success" := by
  intro o maxIter c
  refine ⟨rfl, rfl, rfl, ?_⟩
  rcases final_state_spec ⟨o.search, fun _ => Except.ok ⟨c, []⟩, o.parseArgs, o.fs⟩ [] maxIter
    with ⟨ms, heq, hlen⟩
  have hloop := gen_loop_no_tools ⟨o.search, fun _ => Except.ok ⟨c, []⟩, o.parseArgs, o.fs⟩
    ⟨ms, [], "context_retrieved", maxIter, 0⟩ c rfl rfl
  have hmsg : (final_state ⟨o.search, fun _ => Except.ok ⟨c, []⟩, o.parseArgs, o.fs⟩
        [] maxIter).messages = ms ++ [⟨"assistant", c, [], none⟩] := by
    rw [heq, hloop]
  have hpr := process_request_of_final_messages _ [] maxIter ms _ rfl hmsg
  rw [hpr]

end LocalLLM
